import Mathlib

/-!
Shallow embedding of the asynchronous weather-refresh pipeline of this
repository: `Weatherdashboard.py` (the dashboard with a background worker
thread draining a FIFO queue) and `pro.py` (the simpler synchronous
variant).  Python values flowing through the pipeline are dynamically
typed; they are embedded as a JSON-like inductive.  Exceptions are
embedded as explicit error values, caught exactly where the source's
`try/except` blocks catch them.  Observable effects (status-bar writes,
HTTP requests, CSV writes, log lines) are recorded in an event trace.
-/

namespace WeatherApp

/-- JSON-like Python values: the shape of `response.json()` results and of
the dynamically typed fields the dashboard passes around.  Floating point
numbers are embedded as rationals; the pipeline never computes with them,
it only passes them through. -/
inductive Json where
  | null : Json
  | bool : Bool → Json
  | num : ℚ → Json
  | str : String → Json
  | arr : List Json → Json
  | obj : List (String × Json) → Json

/-- Python exceptions relevant to the embedded code paths.  `requestError`
covers the whole `requests.RequestException` family: transport errors,
the `HTTPError` raised by `raise_for_status`, and the JSON decode error
raised by `response.json()` on a malformed body. -/
inductive PyErr where
  | keyError (k : String)
  | typeError
  | indexError
  | requestError
  | oSError
deriving DecidableEq

/-- First binding of a key in an association list (Python dict literals
have unique keys, so this is exactly Python dict lookup). -/
def lookupKey : List (String × Json) → String → Option Json
  | [], _ => none
  | (k', v) :: rest, k => if k' = k then some v else lookupKey rest k

/-- Python subscription `d[k]` with a string key: `KeyError` when the key
is absent from a dict, `TypeError` when the value is not a dict. -/
def Json.get : Json → String → Except PyErr Json
  | .obj kvs, k =>
    match lookupKey kvs k with
    | some v => .ok v
    | none => .error (.keyError k)
  | _, _ => .error .typeError

/-- Python subscription `l[i]` with an integer index: `IndexError` when out
of range, `TypeError` when the value is not a list. -/
def Json.idx : Json → Nat → Except PyErr Json
  | .arr xs, i =>
    match xs[i]? with
    | some v => .ok v
    | none => .error .indexError
  | _, _ => .error .typeError

/-- Python `str()` as used by f-strings and tkinter label updates, for the
value kinds that occur in provider payloads.  Strings embed as-is and
numbers by decimal rendering; containers are abbreviated (no claim
exercises the rendering of a container value). -/
def pyFStr : Json → String
  | .str s => s
  | .num q => toString q
  | .bool true => "True"
  | .bool false => "False"
  | .null => "None"
  | .arr _ => "[...]"
  | .obj _ => "\x7b...\x7d"

/-- Result of `response.json()` embedded as the parsed document, or `none`
when the body is malformed (the decode error is raised only when `.json()`
is actually called). -/
structure HttpResp where
  status : Nat
  body : Option Json

/-- Outcome of one `session.get` call: the transport raised, or a response
arrived. -/
abbrev CallResult := Except PyErr HttpResp

/-- Whether `response.raise_for_status()` raises: it does exactly for 4xx
and 5xx status codes. -/
def raiseForStatus (r : HttpResp) : Bool :=
  decide (400 ≤ r.status ∧ r.status < 600)

/-- One call "fails" in the sense of `WeatherAPI.get_weather`: the
transport raised, the status is non-success (4xx/5xx), or the body is
malformed. -/
def callFails : CallResult → Bool
  | .error _ => true
  | .ok r => raiseForStatus r || r.body.isNone

/-- Embedding of `WeatherAPI.get_weather` (Weatherdashboard.py lines
84-110): two GETs (current conditions, one-day forecast), then
`raise_for_status` on both, then both bodies are parsed into the returned
dict; every `requests.RequestException` is caught and turns the whole
fetch into `None`. -/
def get_weather (currentCall forecastCall : CallResult) : Option Json :=
  match currentCall, forecastCall with
  | .error _, _ => none
  | .ok _, .error _ => none
  | .ok cr, .ok fr =>
    if raiseForStatus cr then none
    else if raiseForStatus fr then none
    else
      match cr.body, fr.body with
      | some cj, some fj => some (.obj [("current", cj), ("forecast", fj)])
      | _, _ => none

/-- Characters removed by Python `str.strip()` with no argument (the ASCII
whitespace class; exotic Unicode space classes are elided, no claim
exercises them). -/
def isPySpace (c : Char) : Bool :=
  c == ' ' || c == '\t' || c == '\n' || c == '\r' || c == '\x0b' || c == '\x0c'

/-- Python `str.strip()`: drop leading and trailing whitespace. -/
def pyStrip (s : String) : String :=
  String.mk (((s.data.dropWhile isPySpace).reverse.dropWhile isPySpace).reverse)

namespace Dash

/-- Embedding of `WeatherDashboard.update_weather` (lines 392-398), the
UI-side request submission: strip the entry text; if non-empty, put it on
the update queue, otherwise show a warning box (second component `true`)
and leave the queue alone. -/
def update_weather (cityInput : String) (queue : List String) :
    List String × Bool :=
  let city := pyStrip cityInput
  if city ≠ "" then (queue ++ [city], false) else (queue, true)

end Dash

/-- Normalized record `WeatherData` (Weatherdashboard.py lines 33-42).
Python dataclasses do not check field types, so each field holds whatever
value the provider supplied. -/
structure WeatherData where
  temperature : Json
  condition : Json
  humidity : Json
  wind_speed : Json
  pressure : Json
  feels_like : Json
  icon_url : String

/-- Record-construction phase of `WeatherDashboard.process_weather_data`
(lines 324-334): `current = data['current']['current']`, then the
`WeatherData(...)` constructor arguments evaluated in source order.  A
`KeyError` or `TypeError` raised here is what the spec calls a
`NormalizationError`; it is caught by the surrounding `except` of
`process_weather_data`. -/
def normalize (data : Json) : Except PyErr WeatherData := do
  let currentDoc ← data.get "current"
  let current ← currentDoc.get "current"
  let temp ← current.get "temp_c"
  let condObj ← current.get "condition"
  let cond ← condObj.get "text"
  let hum ← current.get "humidity"
  let wind ← current.get "wind_kph"
  let press ← current.get "pressure_mb"
  let feels ← current.get "feelslike_c"
  let condObj2 ← current.get "condition"
  let icon ← condObj2.get "icon"
  pure { temperature := temp, condition := cond, humidity := hum,
         wind_speed := wind, pressure := press, feels_like := feels,
         icon_url := "http:" ++ pyFStr icon }

/-- Inner `current` object carrying all documented fields, with the given
(arbitrarily shaped) values. -/
def currentFields (t c h w p f i : Json) : List (String × Json) :=
  [("temp_c", t),
   ("condition", .obj [("text", c), ("icon", i)]),
   ("humidity", h), ("wind_kph", w), ("pressure_mb", p), ("feelslike_c", f)]

/-- Complete payload as assembled by `get_weather`, with the documented
current-conditions fields set to the given values. -/
def mkPayload (t c h w p f i fdoc : Json) : Json :=
  .obj [("current", .obj [("current", .obj (currentFields t c h w p f i))]),
        ("forecast", fdoc)]

/-- Payload as `mkPayload` but with one documented field removed from the
inner `current` object. -/
def mkPayloadDrop (k : String) (t c h w p f i fdoc : Json) : Json :=
  .obj [("current", .obj [("current",
          .obj ((currentFields t c h w p f i).filter (fun kv => kv.1 != k)))]),
        ("forecast", fdoc)]

/-- Payload as `mkPayload` but with one key removed from the nested
`condition` object. -/
def mkPayloadCondDrop (k : String) (t c h w p f i fdoc : Json) : Json :=
  .obj [("current", .obj [("current", .obj
          [("temp_c", t),
           ("condition", .obj ([("text", c), ("icon", i)].filter (fun kv => kv.1 != k))),
           ("humidity", h), ("wind_kph", w), ("pressure_mb", p), ("feelslike_c", f)])]),
        ("forecast", fdoc)]

/-- Payload where the `condition` field is a bare string instead of an
object: a container of the wrong shape. -/
def mkPayloadCondStr (s : String) (t h w p f fdoc : Json) : Json :=
  .obj [("current", .obj [("current", .obj
          [("temp_c", t), ("condition", .str s), ("humidity", h),
           ("wind_kph", w), ("pressure_mb", p), ("feelslike_c", f)])]),
        ("forecast", fdoc)]

/-- Payload in which the humidity field has the wrong shape: a string
instead of an integer. -/
def wrongShapePayload : Json :=
  mkPayload (.num 15) (.str "Cloudy") (.str "eighty") (.num 10) (.num 1012)
    (.num 14) (.str "//cdn.weatherapi.com/64x64/day/119.png") (.obj [])

/-- Concrete sample current-conditions body. -/
def sampleCurrentBody : Json :=
  .obj [("current", .obj
    [("temp_c", .num 15), ("condition", .obj
       [("text", .str "Cloudy"), ("icon", .str "//cdn.weatherapi.com/64x64/day/119.png")]),
     ("humidity", .num 80), ("wind_kph", .num 10),
     ("pressure_mb", .num 1012), ("feelslike_c", .num 14)])]

/-- Concrete sample forecast body. -/
def sampleForecastBody : Json :=
  .obj [("forecast", .obj
    [("forecastday", .arr [.obj [("hour", .arr [.obj
       [("time", .str "2024-01-01 00:00"), ("temp_c", .num 12)]])]])])]

/-- Successful current-conditions call. -/
def okCurrentCall : CallResult := .ok ⟨200, some sampleCurrentBody⟩

/-- Successful forecast call. -/
def okForecastCall : CallResult := .ok ⟨200, some sampleForecastBody⟩

/-- Observable events of the refresh pipeline, recorded in program order.
Log lines are embedded by the static prefix of the source's f-string (the
appended exception text is elided). -/
inductive Ev where
  | statusSet (s : String)
  | fetchCall (city : String)
  | httpGet (url : String)
  | displayUpdated
  | iconUpdated
  | graphUpdated
  | csvHeaderWritten
  | csvAppended
  | logError (msg : String)
deriving DecidableEq

/-- Tkinter-backed mutable display state of the dashboard: the status bar
text, the five weather text variables, and the icon label (identified by
the URL whose image it currently shows, `none` if never set). -/
structure UIState where
  status_var : String
  temp_var : String
  condition_var : String
  humidity_var : String
  wind_var : String
  pressure_var : String
  icon_image : Option String
deriving DecidableEq

/-- Base URL of the provider, from the default configuration written by
`Config.load_config`. -/
def base_url : String := "http://api.weatherapi.com/v1"

/-- HTTP GETs issued inside `get_weather`: the current-conditions GET is
always attempted; the forecast GET only runs when the first call did not
raise in transport. -/
def apiRequests (currentCall : CallResult) : List Ev :=
  match currentCall with
  | .error _ => [.httpGet (base_url ++ "/current.json")]
  | .ok _ => [.httpGet (base_url ++ "/current.json"),
              .httpGet (base_url ++ "/forecast.json")]

/-- Embedding of `WeatherDashboard.update_ui` (lines 351-367): write the
five weather text variables, then fetch the icon image over HTTP; a
failure of the icon fetch or decode (`iconOk = false`) is caught by the
inner `try` and only logged. -/
def update_ui (w : WeatherData) (ui : UIState) (iconOk : Bool) :
    UIState × List Ev :=
  let ui1 := { ui with
    temp_var := pyFStr w.temperature ++ "°C",
    condition_var := pyFStr w.condition,
    humidity_var := pyFStr w.humidity ++ "%",
    wind_var := pyFStr w.wind_speed ++ " km/h",
    pressure_var := pyFStr w.pressure ++ " mb" }
  if iconOk then
    ({ ui1 with icon_image := some w.icon_url },
     [.displayUpdated, .httpGet w.icon_url, .iconUpdated])
  else
    (ui1, [.displayUpdated, .httpGet w.icon_url,
           .logError "Failed to update weather icon"])

/-- Extraction chain at the top of `update_forecast_graph`:
`forecast_data['forecast']['forecastday'][0]['hour']`. -/
def forecastHours (forecastDoc : Json) : Except PyErr Json := do
  let f ← forecastDoc.get "forecast"
  let days ← f.get "forecastday"
  let d0 ← days.idx 0
  d0.get "hour"

/-- Embedding of `WeatherDashboard.update_forecast_graph` (lines 369-390):
extract the hourly series and redraw the chart.  Every exception —
including `datetime.fromisoformat` parse errors and rendering failures,
abstracted by `renderOk` — is caught by the function's own `except` and
only logged, so it cannot influence the rest of the cycle. -/
def update_forecast_graph (forecastDoc : Json) (renderOk : Bool) : List Ev :=
  match forecastHours forecastDoc with
  | .error _ => [.logError "Failed to update forecast graph"]
  | .ok _ =>
    if renderOk then [.graphUpdated]
    else [.logError "Failed to update forecast graph"]

/-- One row of a history CSV, as the list of cell values in column order.
Cells keep their Python values; text serialization is not modelled. -/
abbrev Row := List Json

/-- The dashboard history file `data/weather_history.csv`: `none` when it
does not exist yet. -/
abbrev CsvFile := Option (List Row)

/-- Header row written by `DataManager.save_weather_data` on first
creation of the history file. -/
def dashboardHeader : Row :=
  [.str "timestamp", .str "city", .str "temperature", .str "condition",
   .str "humidity", .str "wind_speed", .str "pressure"]

/-- Data row written by `DataManager.save_weather_data` for one record:
fixed column order timestamp, city, temperature, condition, humidity,
wind_speed, pressure. -/
def recordRow (ts city : String) (w : WeatherData) : Row :=
  [.str ts, .str city, w.temperature, w.condition, w.humidity,
   w.wind_speed, w.pressure]

/-- Embedding of `DataManager.save_weather_data` (lines 118-133): append
one row, writing the header first exactly when the file does not exist
yet (`header=not self.history_file.exists()`); a write failure
(`writeOk = false`, all-or-nothing) is caught by the function's own
`except` and only logged — the caller never sees it. -/
def save_weather_data (ts city : String) (w : WeatherData)
    (file : CsvFile) (writeOk : Bool) : CsvFile × List Ev :=
  if writeOk then
    match file with
    | none => (some [dashboardHeader, recordRow ts city w],
               [.csvHeaderWritten, .csvAppended])
    | some rows => (some (rows ++ [recordRow ts city w]), [.csvAppended])
  else (file, [.logError "Failed to save weather data"])

/-- Per-request environment: outcomes of the external effects that one
refresh cycle may perform. -/
structure CycleEnv where
  currentCall : CallResult
  forecastCall : CallResult
  iconOk : Bool
  renderOk : Bool
  writeOk : Bool
  ts : String

/-- Embedding of `WeatherDashboard.process_weather_data` (lines 321-349):
build the record, update the display, redraw the chart, append to
history, then set the success status.  A `KeyError`/`TypeError` from
record construction or from `data['forecast']` is caught by the
function's own `except`, logged, and reported as a failure status; the
chart and the history append catch their own errors, so they can never
prevent the final success status. -/
def process_weather_data (city : String) (env : CycleEnv) (data : Json)
    (ui : UIState) (file : CsvFile) : UIState × CsvFile × List Ev :=
  match normalize data with
  | .error _ =>
      ({ ui with status_var := "Failed to process weather data" }, file,
       [.logError "Failed to process weather data",
        .statusSet "Failed to process weather data"])
  | .ok w =>
      let uiEvs := update_ui w ui env.iconOk
      match data.get "forecast" with
      | .error _ =>
          ({ uiEvs.1 with status_var := "Failed to process weather data" },
           file,
           uiEvs.2 ++ [.logError "Failed to process weather data",
                       .statusSet "Failed to process weather data"])
      | .ok fdoc =>
          let graphEvs := update_forecast_graph fdoc env.renderOk
          let saveEvs := save_weather_data env.ts city w file env.writeOk
          ({ uiEvs.1 with status_var := "Weather updated for " ++ city },
           saveEvs.1,
           uiEvs.2 ++ graphEvs ++ saveEvs.2 ++
             [.statusSet ("Weather updated for " ++ city)])

/-- Status text set on entering a fetch. -/
def fetchingMsg (city : String) : String :=
  "Fetching weather data for " ++ city ++ "..."

/-- One iteration of `WeatherDashboard.update_worker` (lines 303-319) for
one dequeued city: set the progress status, call `get_weather`, then
either process the payload or report the fetch failure (`get_weather`
logs "API request failed" before returning `None`).  Every failure mode
is handled inside the cycle — the loop's own `except` only guards exotic
failures of the queue and status primitives — so the cycle is a total
function of its inputs. -/
def run_cycle (city : String) (env : CycleEnv) (ui : UIState)
    (file : CsvFile) : UIState × CsvFile × List Ev :=
  let ui0 := { ui with status_var := fetchingMsg city }
  let pre : List Ev :=
    .statusSet (fetchingMsg city) :: .fetchCall city ::
      apiRequests env.currentCall
  match get_weather env.currentCall env.forecastCall with
  | some data =>
      let r := process_weather_data city env data ui0 file
      (r.1, r.2.1, pre ++ r.2.2)
  | none =>
      ({ ui0 with status_var := "Failed to fetch weather data" }, file,
       pre ++ [.logError "API request failed",
               .statusSet "Failed to fetch weather data"])

/-- The worker loop of `WeatherDashboard.update_worker` draining the given
queue contents.  There is exactly one worker thread (started once in
`__init__`, lines 149-151 and 295-301), so the cycles run strictly
sequentially in FIFO order. -/
def update_worker : List (String × CycleEnv) → UIState → CsvFile →
    UIState × CsvFile × List Ev
  | [], ui, file => (ui, file, [])
  | (city, env) :: rest, ui, file =>
      let r := run_cycle city env ui file
      let rest' := update_worker rest r.1 r.2.1
      (rest'.1, rest'.2.1, r.2.2 ++ rest'.2.2)

/-- Trace of the worker loop split into its per-cycle segments. -/
def worker_segments : List (String × CycleEnv) → UIState → CsvFile →
    List (List Ev)
  | [], _, _ => []
  | (city, env) :: rest, ui, file =>
      let r := run_cycle city env ui file
      r.2.2 :: worker_segments rest r.1 r.2.1

/-- Cities for which the Fetcher (`get_weather`) was invoked, in order. -/
def fetchCities : List Ev → List String
  | [] => []
  | .fetchCall c :: rest => c :: fetchCities rest
  | _ :: rest => fetchCities rest

/-- Status-bar texts set during the trace, in order. -/
def statusSets : List Ev → List String
  | [] => []
  | .statusSet s :: rest => s :: statusSets rest
  | _ :: rest => statusSets rest

/-- URLs of the HTTP GET requests issued during the trace, in order. -/
def httpGets : List Ev → List String
  | [] => []
  | .httpGet u :: rest => u :: httpGets rest
  | _ :: rest => httpGets rest

/-- Terminal status texts with which a cycle for `city` can end. -/
def IsOutcome (city s : String) : Prop :=
  s = "Failed to fetch weather data" ∨ s = "Failed to process weather data"
  ∨ s = "Weather updated for " ++ city

/-- Iterated successful appends of (timestamp, city, record) triples
through `save_weather_data`. -/
def appendAll : List (String × String × WeatherData) → CsvFile → CsvFile
  | [], file => file
  | (ts, city, w) :: rest, file =>
      appendAll rest (save_weather_data ts city w file true).1

namespace Pro

/-- Tkinter labels of `pro.py`: the three text labels and the icon image
(identified by the URL whose image it shows, `none` when cleared). -/
structure ProUI where
  temp_label : String
  condition_label : String
  humidity_label : String
  icon_label : Option String
deriving DecidableEq

/-- Embedding of `fetch_weather` (pro.py lines 9-21): one GET with no
exception handling — transport and JSON-decode errors propagate to the
caller; on HTTP 200 extract the four fields (each subscription may raise,
uncaught), otherwise return the all-`None` tuple. -/
def fetch_weather (resp : Except PyErr HttpResp) :
    Except PyErr (Option (Json × Json × Json × Json)) := do
  let r ← resp
  if r.status = 200 then
    match r.body with
    | none => .error .requestError
    | some data => do
        let cur1 ← data.get "current"
        let temp ← cur1.get "temp_c"
        let cur2 ← data.get "current"
        let condObj ← cur2.get "condition"
        let cond ← condObj.get "text"
        let cur3 ← data.get "current"
        let hum ← cur3.get "humidity"
        let cur4 ← data.get "current"
        let condObj2 ← cur4.get "condition"
        let icon ← condObj2.get "icon"
        pure (some (temp, cond, hum, icon))
  else
    pure none

/-- Embedding of `save_to_csv` (pro.py lines 46-54): append one 4-column
row (City, Temperature, Condition, Humidity); `header=False` always, so
no header row is ever written. -/
def save_to_csv (city : String) (temperature condition humidity : Json)
    (file : List Row) : List Row :=
  file ++ [[.str city, temperature, condition, humidity]]

/-- Embedding of `update_weather` (pro.py lines 24-43).  The last
component is the exception escaping the handler, if any, and the state
components are those reached at the point it escaped.  On a non-200
response the labels are overwritten: the temperature label shows an error
message, condition and humidity are cleared, the icon image is removed.
On success the labels are set, the row is appended (a write failure
raises after the labels were written), then the icon is fetched (a
failure there raises after the row was written). -/
def update_weather (cityInput : String) (resp : Except PyErr HttpResp)
    (iconOk writeOk : Bool) (ui : ProUI) (file : List Row) :
    ProUI × List Row × Option PyErr :=
  match fetch_weather resp with
  | .error e => (ui, file, some e)
  | .ok none =>
      ({ temp_label := "Error fetching data", condition_label := "",
         humidity_label := "", icon_label := none }, file, none)
  | .ok (some (t, c, h, icon)) =>
      let ui1 := { ui with
        temp_label := pyFStr t ++ "°C",
        condition_label := pyFStr c,
        humidity_label := pyFStr h ++ "%" }
      if writeOk then
        let file1 := save_to_csv cityInput t c h file
        if iconOk then
          ({ ui1 with icon_label := some ("http:" ++ pyFStr icon) },
           file1, none)
        else (ui1, file1, some .requestError)
      else (ui1, file, some .oSError)

end Pro

/-- Blank initial display state of the dashboard. -/
def uiInit : UIState := ⟨"", "", "", "", "", "", none⟩

/-- Environment of a fully successful cycle on the sample payload. -/
def envAllOk : CycleEnv :=
  ⟨okCurrentCall, okForecastCall, true, true, true, "2024-01-01 12:00:00"⟩

/-- Environment whose history write fails but whose fetch, icon and chart
succeed. -/
def envPersistFail : CycleEnv :=
  ⟨okCurrentCall, okForecastCall, true, true, false, "2024-01-01 12:00:00"⟩

/-- Environment whose current-conditions call raises in transport. -/
def envFetchFail : CycleEnv :=
  ⟨.error .requestError, okForecastCall, true, true, true, "2024-01-01 12:00:00"⟩

/-- Record normalized from the sample payload. -/
def sampleRecord : WeatherData :=
  { temperature := .num 15, condition := .str "Cloudy", humidity := .num 80,
    wind_speed := .num 10, pressure := .num 1012, feels_like := .num 14,
    icon_url := "http://cdn.weatherapi.com/64x64/day/119.png" }

/-- Concrete display state of `pro.py` showing earlier weather. -/
def proUISample : Pro.ProUI :=
  ⟨"15°C", "Cloudy", "80%", some "http://cdn.weatherapi.com/64x64/day/119.png"⟩

end WeatherApp

namespace WeatherApp

/-- C3: `get_weather` fails as a unit: it returns `None` exactly when one
of the two calls fails (transport error, 4xx/5xx status, malformed body),
and a successful result always carries both bodies — never a partial
payload. -/
theorem c3_fetch_fails_as_a_unit (c f : CallResult) :
    (get_weather c f = none ↔ (callFails c = true ∨ callFails f = true))
    ∧ ∀ j, get_weather c f = some j →
        ∃ rc rf cj fj, c = .ok rc ∧ f = .ok rf ∧
          rc.body = some cj ∧ rf.body = some fj ∧
          j = Json.obj [("current", cj), ("forecast", fj)] := by
  rcases c with e | rc
  · simp [get_weather, callFails]
  · rcases f with e2 | rf
    · simp [get_weather, callFails]
    · by_cases h1 : raiseForStatus rc
      · simp [get_weather, callFails, h1]
      · by_cases h2 : raiseForStatus rf
        · simp [get_weather, callFails, h1, h2]
        · rcases hb1 : rc.body with _ | cj
          · simp [get_weather, callFails, h1, h2, hb1, Option.isNone]
          · rcases hb2 : rf.body with _ | fj
            · simp [get_weather, callFails, h1, h2, hb1, hb2, Option.isNone]
            · constructor
              · simp [get_weather, callFails, h1, h2, hb1, hb2, Option.isNone]
              · intro j hj
                refine ⟨rc, rf, cj, fj, rfl, rfl, hb1, hb2, ?_⟩
                simp [get_weather, h1, h2, hb1, hb2] at hj
                exact hj.symm

/-- Witness for C3 at a concrete successful pair of calls. -/
theorem c3_witness :
    ∃ rc rf cj fj, okCurrentCall = .ok rc ∧ okForecastCall = .ok rf ∧
      rc.body = some cj ∧ rf.body = some fj ∧
      Json.obj [("current", sampleCurrentBody), ("forecast", sampleForecastBody)]
        = Json.obj [("current", cj), ("forecast", fj)] :=
  (c3_fetch_fails_as_a_unit okCurrentCall okForecastCall).2
    (Json.obj [("current", sampleCurrentBody), ("forecast", sampleForecastBody)]) rfl

/-- C10: the dashboard's `update_weather` handler enqueues a request if and
only if the entered city is non-empty after stripping whitespace; blank or
all-whitespace input leaves the queue unchanged (a warning box is shown
instead), and an all-whitespace string strips to empty. -/
theorem c10_blank_input_never_enqueued (input : String) (queue : List String) :
    ((Dash.update_weather input queue).1 = queue ↔ pyStrip input = "")
    ∧ (pyStrip input ≠ "" →
        Dash.update_weather input queue = (queue ++ [pyStrip input], false))
    ∧ (pyStrip input = "" → Dash.update_weather input queue = (queue, true))
    ∧ (input.data.all isPySpace = true → pyStrip input = "") := by
  refine ⟨?_, ?_, ?_, ?_⟩
  · constructor
    · intro h
      by_contra hne
      rw [Dash.update_weather] at h
      simp only [hne, if_pos, ne_eq, not_false_iff, if_true] at h
      have hlen := congrArg List.length h
      simp at hlen
    · intro h
      simp [Dash.update_weather, h]
  · intro h
    simp [Dash.update_weather, h]
  · intro h
    simp [Dash.update_weather, h]
  · intro h
    have hall : ∀ x ∈ input.data, isPySpace x := by
      simpa [List.all_eq_true] using h
    have hd : input.data.dropWhile isPySpace = [] :=
      List.dropWhile_eq_nil_iff.2 hall
    simp [pyStrip, hd]

/-- Witness for C10: a padded city name is stripped and enqueued. -/
theorem c10_witness :
    Dash.update_weather "  London " ["Oslo"] = (["Oslo"] ++ [pyStrip "  London "], false) :=
  (c10_blank_input_never_enqueued "  London " ["Oslo"]).2.1 (by decide)

/-- Counterexample to C4 as stated: a payload whose `humidity` field has
the wrong shape (the string "eighty" instead of an integer) is accepted by
normalization, which produces a record containing the ill-shaped value
instead of failing with a `NormalizationError`. -/
theorem c4_counterexample :
    normalize wrongShapePayload = .ok
      { temperature := .num 15, condition := .str "Cloudy",
        humidity := .str "eighty", wind_speed := .num 10,
        pressure := .num 1012, feels_like := .num 14,
        icon_url := "http://cdn.weatherapi.com/64x64/day/119.png" } := rfl

/-- C4 (amended): normalization passes every present field through to the
record unchanged whatever its shape (no unit conversion, no invented
values); it fails explicitly when a documented field is missing from the
payload or when a container (the `condition` object) has the wrong shape;
a leaf field of the wrong shape is passed through rather than rejected. -/
theorem c4_normalize_passthrough_and_missing_field_failure
    (t c h w p f i fdoc : Json) :
    (normalize (mkPayload t c h w p f i fdoc) = .ok
      { temperature := t, condition := c, humidity := h, wind_speed := w,
        pressure := p, feels_like := f, icon_url := "http:" ++ pyFStr i })
    ∧ (∀ k ∈ ["temp_c", "condition", "humidity", "wind_kph",
              "pressure_mb", "feelslike_c"],
        normalize (mkPayloadDrop k t c h w p f i fdoc) = .error (.keyError k))
    ∧ (∀ k ∈ ["text", "icon"],
        normalize (mkPayloadCondDrop k t c h w p f i fdoc) = .error (.keyError k))
    ∧ (∀ s : String,
        normalize (mkPayloadCondStr s t h w p f fdoc) = .error .typeError) := by
  refine ⟨rfl, ?_, ?_, fun s => rfl⟩
  · intro k hk
    fin_cases hk <;> rfl
  · intro k hk
    fin_cases hk <;> rfl

/-- Witness for C4 (amended): dropping the humidity field from a concrete
payload makes normalization fail with the corresponding `KeyError`. -/
theorem c4_witness :
    normalize (mkPayloadDrop "humidity" (.num 15) (.str "Cloudy") (.num 80)
        (.num 10) (.num 1012) (.num 14) (.str "//i.png") .null)
      = .error (.keyError "humidity") :=
  (c4_normalize_passthrough_and_missing_field_failure (.num 15) (.str "Cloudy")
      (.num 80) (.num 10) (.num 1012) (.num 14) (.str "//i.png") .null).2.1
    "humidity" (by decide)

theorem fetchCities_append (a b : List Ev) :
    fetchCities (a ++ b) = fetchCities a ++ fetchCities b := by
  induction a with
  | nil => rfl
  | cons e rest ih => cases e <;> simp [fetchCities, ih]

theorem statusSets_append (a b : List Ev) :
    statusSets (a ++ b) = statusSets a ++ statusSets b := by
  induction a with
  | nil => rfl
  | cons e rest ih => cases e <;> simp [statusSets, ih]

theorem httpGets_append (a b : List Ev) :
    httpGets (a ++ b) = httpGets a ++ httpGets b := by
  induction a with
  | nil => rfl
  | cons e rest ih => cases e <;> simp [httpGets, ih]

theorem apiRequests_proj (c : CallResult) :
    fetchCities (apiRequests c) = [] ∧ statusSets (apiRequests c) = [] := by
  cases c <;> simp [apiRequests, fetchCities, statusSets]

theorem update_ui_proj (w : WeatherData) (ui : UIState) (b : Bool) :
    fetchCities (update_ui w ui b).2 = []
    ∧ statusSets (update_ui w ui b).2 = []
    ∧ httpGets (update_ui w ui b).2 = [w.icon_url]
    ∧ Ev.displayUpdated ∈ (update_ui w ui b).2 := by
  cases b <;> simp [update_ui, fetchCities, statusSets, httpGets]

theorem update_forecast_graph_proj (f : Json) (b : Bool) :
    fetchCities (update_forecast_graph f b) = []
    ∧ statusSets (update_forecast_graph f b) = []
    ∧ httpGets (update_forecast_graph f b) = [] := by
  rcases h : forecastHours f with e | j <;>
    cases b <;>
      simp [update_forecast_graph, h, fetchCities, statusSets, httpGets]

theorem save_weather_data_proj (ts city : String) (w : WeatherData)
    (file : CsvFile) (b : Bool) :
    fetchCities (save_weather_data ts city w file b).2 = []
    ∧ statusSets (save_weather_data ts city w file b).2 = []
    ∧ httpGets (save_weather_data ts city w file b).2 = [] := by
  cases b <;> cases file <;>
    simp [save_weather_data, fetchCities, statusSets, httpGets]

/-- A successful fetch result carries exactly the two-key payload. -/
theorem get_weather_some_shape (c f : CallResult) (data : Json)
    (h : get_weather c f = some data) :
    ∃ cj fj, data = Json.obj [("current", cj), ("forecast", fj)] := by
  rcases c with e | rc
  · simp [get_weather] at h
  · rcases f with e2 | rf
    · simp [get_weather] at h
    · by_cases h1 : raiseForStatus rc
      · simp [get_weather, h1] at h
      · by_cases h2 : raiseForStatus rf
        · simp [get_weather, h1, h2] at h
        · rcases hb1 : rc.body with _ | cj
          · simp [get_weather, h1, h2, hb1] at h
          · rcases hb2 : rf.body with _ | fj
            · simp [get_weather, h1, h2, hb1, hb2] at h
            · refine ⟨cj, fj, ?_⟩
              simp [get_weather, h1, h2, hb1, hb2] at h
              exact h.symm

/-- Each cycle sets exactly two status texts — the progress text and one
terminal outcome — and invokes the Fetcher exactly once, whatever the
outcome of every stage. -/
theorem run_cycle_outcome (city : String) (env : CycleEnv) (ui : UIState)
    (file : CsvFile) :
    ∃ t, IsOutcome city t
      ∧ statusSets (run_cycle city env ui file).2.2 = [fetchingMsg city, t]
      ∧ fetchCities (run_cycle city env ui file).2.2 = [city] := by
  rcases hgw : get_weather env.currentCall env.forecastCall with _ | data
  · refine ⟨"Failed to fetch weather data", Or.inl rfl, ?_, ?_⟩ <;>
      simp [run_cycle, hgw, statusSets_append, fetchCities_append,
        (apiRequests_proj env.currentCall).1, (apiRequests_proj env.currentCall).2,
        statusSets, fetchCities]
  · rcases hn : normalize data with e | w
    · refine ⟨"Failed to process weather data", Or.inr (Or.inl rfl), ?_, ?_⟩ <;>
        simp [run_cycle, hgw, process_weather_data, hn, statusSets_append,
          fetchCities_append, (apiRequests_proj env.currentCall).1,
          (apiRequests_proj env.currentCall).2, statusSets, fetchCities]
    · rcases hf : data.get "forecast" with e2 | fdoc
      · refine ⟨"Failed to process weather data", Or.inr (Or.inl rfl), ?_, ?_⟩ <;>
          simp [run_cycle, hgw, process_weather_data, hn, hf, statusSets_append,
            fetchCities_append, (apiRequests_proj env.currentCall).1,
            (apiRequests_proj env.currentCall).2,
            (update_ui_proj w _ env.iconOk).1, (update_ui_proj w _ env.iconOk).2.1,
            statusSets, fetchCities]
      · refine ⟨"Weather updated for " ++ city, Or.inr (Or.inr rfl), ?_, ?_⟩ <;>
          simp [run_cycle, hgw, process_weather_data, hn, hf, statusSets_append,
            fetchCities_append, (apiRequests_proj env.currentCall).1,
            (apiRequests_proj env.currentCall).2,
            (update_ui_proj w _ env.iconOk).1, (update_ui_proj w _ env.iconOk).2.1,
            (update_forecast_graph_proj fdoc env.renderOk).1,
            (update_forecast_graph_proj fdoc env.renderOk).2.1,
            (save_weather_data_proj env.ts city w file env.writeOk).1,
            (save_weather_data_proj env.ts city w file env.writeOk).2.1,
            statusSets, fetchCities]

/-- C1: failures are confined to their own cycle: for every queue content
and every combination of per-request outcomes — including every failure
mode at every stage — the worker invokes the Fetcher once per request, in
order, and sets a progress/outcome status pair for every request.  A
failure on request i therefore never stops the worker or loses request
i+1. -/
theorem c1_worker_survives_any_failure (reqs : List (String × CycleEnv))
    (ui : UIState) (file : CsvFile) :
    fetchCities (update_worker reqs ui file).2.2 = reqs.map Prod.fst
    ∧ (statusSets (update_worker reqs ui file).2.2).length
        = 2 * reqs.length := by
  induction reqs generalizing ui file with
  | nil => simp [update_worker, fetchCities, statusSets]
  | cons req rest ih =>
    obtain ⟨city, env⟩ := req
    obtain ⟨t, _, hs, hf⟩ := run_cycle_outcome city env ui file
    have ihr := ih (run_cycle city env ui file).1 (run_cycle city env ui file).2.1
    constructor
    · simp [update_worker, fetchCities_append, hf, ihr.1]
    · simp [update_worker, statusSets_append, hs, ihr.2]
      omega

/-- C2: FIFO processing with no overtaking and no concurrency: the
Fetcher calls occur in exactly the enqueue order, the worker trace is the
concatenation of the per-request segments run one after the other to
completion, and each segment contains exactly one Fetcher invocation — so
at most one fetch is ever in flight. -/
theorem c2_fifo_single_fetch_in_flight (reqs : List (String × CycleEnv))
    (ui : UIState) (file : CsvFile) :
    fetchCities (update_worker reqs ui file).2.2 = reqs.map Prod.fst
    ∧ (update_worker reqs ui file).2.2 = (worker_segments reqs ui file).flatten
    ∧ (worker_segments reqs ui file).all
        (fun seg => (fetchCities seg).length == 1) = true := by
  induction reqs generalizing ui file with
  | nil => simp [update_worker, worker_segments, fetchCities]
  | cons req rest ih =>
    obtain ⟨city, env⟩ := req
    obtain ⟨t, _, hs, hf⟩ := run_cycle_outcome city env ui file
    have ihr := ih (run_cycle city env ui file).1 (run_cycle city env ui file).2.1
    refine ⟨?_, ?_, ?_⟩
    · simp [update_worker, fetchCities_append, hf, ihr.1]
    · simp [update_worker, worker_segments, ihr.2.1]
    · simp [worker_segments, hf, ihr.2.2]

/-- C8: no deduplication: enqueueing the same city twice yields two
Fetcher invocations and two independent outcome events, one per cycle,
each preceded by its own progress status. -/
theorem c8_duplicate_enqueue_two_events (city : String) (e1 e2 : CycleEnv)
    (ui : UIState) (file : CsvFile) :
    ∃ t1 t2, IsOutcome city t1 ∧ IsOutcome city t2
      ∧ statusSets (update_worker [(city, e1), (city, e2)] ui file).2.2
          = [fetchingMsg city, t1, fetchingMsg city, t2]
      ∧ fetchCities (update_worker [(city, e1), (city, e2)] ui file).2.2
          = [city, city] := by
  obtain ⟨t1, ht1, hs1, hf1⟩ := run_cycle_outcome city e1 ui file
  obtain ⟨t2, ht2, hs2, hf2⟩ := run_cycle_outcome city e2
    (run_cycle city e1 ui file).1 (run_cycle city e1 ui file).2.1
  refine ⟨t1, t2, ht1, ht2, ?_, ?_⟩ <;>
    simp [update_worker, statusSets_append, fetchCities_append,
      hs1, hs2, hf1, hf2, statusSets, fetchCities]

/-- Counterexample to C5 as stated: in a concrete cycle whose history
append fails, the failure is only logged — the status sink receives no
failure event at all, only the progress text and the success text — so no
`PersistenceError` failure is reported to the StatusSink. -/
theorem c5_counterexample :
    Ev.logError "Failed to save weather data"
        ∈ (run_cycle "Paris" envPersistFail uiInit (some [dashboardHeader])).2.2
    ∧ (run_cycle "Paris" envPersistFail uiInit (some [dashboardHeader])).2.1
        = some [dashboardHeader]
    ∧ statusSets
        (run_cycle "Paris" envPersistFail uiInit (some [dashboardHeader])).2.2
        = ["Fetching weather data for Paris...", "Weather updated for Paris"] := by
  refine ⟨by decide, rfl, by decide⟩

/-- C5 (amended): when only the history append fails in a cycle, the
record is simply not appended (the file is unchanged) and the failure is
logged, but no failure is reported to the status sink — the status bar
ends with the success text — while the display update (the Result) is
still emitted. -/
theorem c5_persistence_failure_logged_not_reported
    (city : String) (env : CycleEnv) (ui : UIState) (file : CsvFile)
    (data : Json) (w : WeatherData)
    (hfetch : get_weather env.currentCall env.forecastCall = some data)
    (hnorm : normalize data = .ok w)
    (hwrite : env.writeOk = false) :
    (run_cycle city env ui file).2.1 = file
    ∧ Ev.displayUpdated ∈ (run_cycle city env ui file).2.2
    ∧ Ev.logError "Failed to save weather data" ∈ (run_cycle city env ui file).2.2
    ∧ statusSets (run_cycle city env ui file).2.2
        = [fetchingMsg city, "Weather updated for " ++ city] := by
  obtain ⟨cj, fj, rfl⟩ := get_weather_some_shape _ _ data hfetch
  have hforecast :
      (Json.obj [("current", cj), ("forecast", fj)]).get "forecast" = .ok fj := by
    simp [Json.get, lookupKey]
  have hui := update_ui_proj w { ui with status_var := fetchingMsg city } env.iconOk
  refine ⟨?_, ?_, ?_, ?_⟩
  · simp [run_cycle, hfetch, process_weather_data, hnorm, hforecast, hwrite,
      save_weather_data]
  · simp [run_cycle, hfetch, process_weather_data, hnorm, hforecast,
      List.mem_append, hui.2.2.2]
  · simp [run_cycle, hfetch, process_weather_data, hnorm, hforecast, hwrite,
      save_weather_data, List.mem_append]
  · simp [run_cycle, hfetch, process_weather_data, hnorm, hforecast, hwrite,
      save_weather_data, statusSets_append, statusSets, hui.2.1,
      (apiRequests_proj env.currentCall).2,
      (update_forecast_graph_proj fj env.renderOk).2.1]

/-- Counterexample to C6 as stated: in `pro.py` (cited by the claim), a
failed fetch does not leave the displayed weather fields unchanged: the
previously displayed condition "Cloudy" is cleared to the empty string,
the temperature label is replaced by an error message and the icon image
is removed (zero rows are written). -/
theorem c6_counterexample :
    (Pro.update_weather "Paris" (.ok ⟨500, none⟩) true true proUISample []).1
      = ⟨"Error fetching data", "", "", none⟩
    ∧ proUISample.condition_label = "Cloudy"
    ∧ (Pro.update_weather "Paris" (.ok ⟨500, none⟩) true true proUISample []).2.1
      = ([] : List Row) :=
  ⟨rfl, rfl, rfl⟩

/-- C6 (amended): on a failed fetch, zero history rows are written in both
programs; in the dashboard every displayed weather field is left
untouched and only the status text changes, but in `pro.py` the display
fields are cleared and the temperature label is replaced with an error
message. -/
theorem c6_fetch_failure_dashboard_keeps_display
    (city : String) (env : CycleEnv) (ui : UIState) (file : CsvFile)
    (hfail : get_weather env.currentCall env.forecastCall = none)
    (input : String) (r : HttpResp) (iconOk writeOk : Bool)
    (pui : Pro.ProUI) (pfile : List Row) (hr : r.status ≠ 200) :
    run_cycle city env ui file =
      ({ ui with status_var := "Failed to fetch weather data" }, file,
        .statusSet (fetchingMsg city) :: .fetchCall city ::
          apiRequests env.currentCall
          ++ [.logError "API request failed",
              .statusSet "Failed to fetch weather data"])
    ∧ Pro.update_weather input (.ok r) iconOk writeOk pui pfile =
      ({ temp_label := "Error fetching data", condition_label := "",
         humidity_label := "", icon_label := none }, pfile, none) := by
  constructor
  · simp [run_cycle, hfail]
  · simp [Pro.update_weather, Pro.fetch_weather, Bind.bind, Except.bind,
      Pure.pure, Except.pure, hr]

/-- Witness for C6 (amended): a transport failure of the current call in
the dashboard, and a 500 response in `pro.py`. -/
theorem c6_witness :
    run_cycle "Paris" envFetchFail uiInit none =
      ({ uiInit with status_var := "Failed to fetch weather data" }, none,
        .statusSet (fetchingMsg "Paris") :: .fetchCall "Paris" ::
          apiRequests envFetchFail.currentCall
          ++ [.logError "API request failed",
              .statusSet "Failed to fetch weather data"])
    ∧ Pro.update_weather "Paris" (.ok ⟨500, some sampleCurrentBody⟩) true true
        proUISample [] =
      ({ temp_label := "Error fetching data", condition_label := "",
         humidity_label := "", icon_label := none }, ([] : List Row), none) :=
  c6_fetch_failure_dashboard_keeps_display "Paris" envFetchFail uiInit none rfl
    "Paris" ⟨500, some sampleCurrentBody⟩ true true proUISample [] (by decide)

/-- Counterexample to C7 as stated: the first successful append in
`pro.py` (cited by the claim) writes a 4-column row — City, Temperature,
Condition, Humidity, no timestamp — and no header row at all, against the
claimed 7-column order with a header on first creation. -/
theorem c7_counterexample :
    Pro.save_to_csv "London" (.num 15) (.str "Cloudy") (.num 80) []
      = [[.str "London", .num 15, .str "Cloudy", .num 80]]
    ∧ [Json.str "London", Json.num 15, Json.str "Cloudy", Json.num 80].length = 4
    ∧ dashboardHeader.length = 7 :=
  ⟨rfl, rfl, rfl⟩

/-- Every sequence of successful dashboard appends starting from a
nonexistent file yields the header followed by one row per record. -/
theorem appendAll_some (recs : List (String × String × WeatherData))
    (rows : List Row) :
    appendAll recs (some rows)
      = some (rows ++ recs.map (fun r => recordRow r.1 r.2.1 r.2.2)) := by
  induction recs generalizing rows with
  | nil => simp [appendAll]
  | cons r rest ih =>
    obtain ⟨ts, city, w⟩ := r
    simp [appendAll, save_weather_data, ih]

/-- C7 (amended): in the dashboard (`DataManager.save_weather_data`) every
successful append writes exactly one data row holding the record's values
unchanged in the fixed column order (timestamp, city, temperature,
condition, humidity, wind_speed, pressure); the header is written exactly
when the file does not yet exist, and any number of successful appends
starting from a nonexistent file yields the header exactly once, as the
first row, followed by one row per record.  The simple variant
`pro.save_to_csv` differs: it appends 4-column rows (City, Temperature,
Condition, Humidity — no timestamp) and never writes a header. -/
theorem c7_append_rows_and_header_once
    (ts city : String) (w : WeatherData) (rows : List Row)
    (r0 : String × String × WeatherData)
    (recs : List (String × String × WeatherData)) :
    save_weather_data ts city w (some rows) true
      = (some (rows ++ [recordRow ts city w]), [.csvAppended])
    ∧ save_weather_data ts city w none true
      = (some [dashboardHeader, recordRow ts city w],
         [.csvHeaderWritten, .csvAppended])
    ∧ appendAll (r0 :: recs) none
      = some (dashboardHeader ::
          (r0 :: recs).map (fun r => recordRow r.1 r.2.1 r.2.2))
    ∧ (∀ (pcity : String) (t c h : Json) (pfile : List Row),
        Pro.save_to_csv pcity t c h pfile = pfile ++ [[.str pcity, t, c, h]]) := by
  refine ⟨rfl, rfl, ?_, fun pcity t c h pfile => rfl⟩
  obtain ⟨ts0, city0, w0⟩ := r0
  simp [appendAll, save_weather_data, appendAll_some]

/-- Counterexample to C9 as stated: on a concrete successful cycle the
worker itself issues an HTTP GET to the record's icon URL — the icon
reference is dereferenced inside the refresh cycle, not left to a
separate presentation layer. -/
theorem c9_counterexample :
    Ev.httpGet "http://cdn.weatherapi.com/64x64/day/119.png"
      ∈ (run_cycle "London" envAllOk uiInit none).2.2 := by
  decide

/-- C9 (amended): fetch, normalization and persistence never dereference
the icon reference — the fetch issues only the two provider API GETs and
the persistence step issues no request at all — but the worker cycle does
dereference it: on a successful refresh the display-update step
`update_ui`, executed by the worker inside the cycle, issues exactly one
HTTP GET to the record's icon URL, and no icon request happens on a
failed fetch or failed normalization. -/
theorem c9_icon_dereferenced_only_by_display_step
    (city : String) (env : CycleEnv) (ui : UIState) (file : CsvFile) :
    (∀ data w, get_weather env.currentCall env.forecastCall = some data →
        normalize data = .ok w →
        httpGets (run_cycle city env ui file).2.2
          = httpGets (apiRequests env.currentCall) ++ [w.icon_url])
    ∧ (∀ data e, get_weather env.currentCall env.forecastCall = some data →
        normalize data = .error e →
        httpGets (run_cycle city env ui file).2.2
          = httpGets (apiRequests env.currentCall))
    ∧ (get_weather env.currentCall env.forecastCall = none →
        httpGets (run_cycle city env ui file).2.2
          = httpGets (apiRequests env.currentCall))
    ∧ (∀ (w : WeatherData) (ui2 : UIState) (b : Bool),
        httpGets (update_ui w ui2 b).2 = [w.icon_url])
    ∧ (∀ (ts c : String) (w : WeatherData) (f : CsvFile) (b : Bool),
        httpGets (save_weather_data ts c w f b).2 = []) := by
  refine ⟨?_, ?_, ?_, ?_, ?_⟩
  · intro data w hfetch hnorm
    obtain ⟨cj, fj, rfl⟩ := get_weather_some_shape _ _ data hfetch
    have hforecast :
        (Json.obj [("current", cj), ("forecast", fj)]).get "forecast" = .ok fj := by
      simp [Json.get, lookupKey]
    simp [run_cycle, hfetch, process_weather_data, hnorm, hforecast,
      httpGets_append, httpGets,
      (update_ui_proj w _ env.iconOk).2.2.1,
      (update_forecast_graph_proj fj env.renderOk).2.2,
      (save_weather_data_proj env.ts city w file env.writeOk).2.2]
  · intro data e hfetch hnorm
    simp [run_cycle, hfetch, process_weather_data, hnorm, httpGets_append,
      httpGets]
  · intro hfail
    simp [run_cycle, hfail, httpGets_append, httpGets]
  · intro w ui2 b
    exact (update_ui_proj w ui2 b).2.2.1
  · intro ts c w f b
    exact (save_weather_data_proj ts c w f b).2.2

/-- Witness for C9 (amended) on the sample successful cycle. -/
theorem c9_witness :
    httpGets (run_cycle "London" envAllOk uiInit none).2.2
      = httpGets (apiRequests envAllOk.currentCall) ++ [sampleRecord.icon_url] :=
  (c9_icon_dereferenced_only_by_display_step "London" envAllOk uiInit none).1
    (Json.obj [("current", sampleCurrentBody), ("forecast", sampleForecastBody)])
    sampleRecord rfl rfl

/-- Witness for C5 (amended), at the sample payload with a failing
write. -/
theorem c5_witness :
    (run_cycle "London" envPersistFail uiInit (some [dashboardHeader])).2.1
        = some [dashboardHeader]
    ∧ Ev.displayUpdated
        ∈ (run_cycle "London" envPersistFail uiInit (some [dashboardHeader])).2.2
    ∧ Ev.logError "Failed to save weather data"
        ∈ (run_cycle "London" envPersistFail uiInit (some [dashboardHeader])).2.2
    ∧ statusSets
        (run_cycle "London" envPersistFail uiInit (some [dashboardHeader])).2.2
        = [fetchingMsg "London", "Weather updated for " ++ "London"] :=
  c5_persistence_failure_logged_not_reported "London" envPersistFail uiInit
    (some [dashboardHeader])
    (Json.obj [("current", sampleCurrentBody), ("forecast", sampleForecastBody)])
    sampleRecord rfl rfl rfl

end WeatherApp
